import Mathlib

/-!
Shallow embedding of the matching subsystem of togeeat-be
(src/matching/matching.controller.ts and src/matching/matching.repository.ts).

Timestamps are modelled as `Int` (milliseconds since epoch, the value of
`Date.valueOf()` in the source).  User and matching identifiers are `Nat`.
The database is a pair of lists: matching rows and membership
(`userMatching`) rows.  Fallible endpoints return the resulting database
together with an `Except AppError` outcome, so that side effects that
survive an error (the leave quirk) are expressible.
-/

namespace Togeeat

/-- MatchingType enum from the Prisma schema: QUICK or YOTEI. -/
inductive MatchingType
  | QUICK
  | YOTEI
deriving DecidableEq

/-- MatchingStatus enum: OPEN or CLOSED. -/
inductive MatchingStatus
  | OPEN
  | CLOSED
deriving DecidableEq

/-- A matching row.  `matchingDate` and `duration` are nullable columns. -/
structure Matching where
  id : Nat
  ownerId : Nat
  matchingType : MatchingType
  matchingDate : Option Int
  duration : Option Int
  status : MatchingStatus
  createdAt : Int
deriving DecidableEq

/-- A userMatching (membership) row. -/
structure Membership where
  matchingId : Nat
  userId : Nat
deriving DecidableEq

/-- The persistent state: matching rows and membership rows. -/
structure DB where
  matchings : List Matching
  memberships : List Membership
deriving DecidableEq

/-- Error taxonomy of the controller: BadRequestException,
NotFoundException, ForbiddenException. -/
inductive AppError
  | badRequest (message : String)
  | notFound
  | forbidden (message : String)
deriving DecidableEq

/-- CreateMatchingDto: the fields the controller validation inspects. -/
structure CreateMatchingDto where
  matchingType : MatchingType
  duration : Option Int
  matchingDate : Option Int
deriving DecidableEq

/-- JS truthiness of the numeric `duration` field: `!duration` is true when
the field is absent or equal to 0 (matching.controller.ts line 26). -/
def numFalsy : Option Int → Bool
  | none => true
  | some v => v == 0

/-- The first guard of `create` (matching.controller.ts lines 25-30):
`(matchingType == QUICK && !duration) || (matchingType == YOTEI && !matchingDate)`.
A `matchingDate` is a `Date` object, truthy whenever present. -/
def missingCheck (dto : CreateMatchingDto) : Bool :=
  (dto.matchingType == .QUICK && numFalsy dto.duration)
    || (dto.matchingType == .YOTEI && dto.matchingDate.isNone)

/-- The second guard (line 31): `duration && duration < 0`. -/
def invalidDuration (dto : CreateMatchingDto) : Bool :=
  match dto.duration with
  | none => false
  | some d => !(d == 0) && decide (d < 0)

/-- The third guard (line 34):
`matchingDate && matchingDate.valueOf() < (new Date()).valueOf()` —
note the strict less-than in the source. -/
def invalidMatchingDate (now : Int) (dto : CreateMatchingDto) : Bool :=
  match dto.matchingDate with
  | none => false
  | some d => decide (d < now)

/-- The matching row persisted by MatchingRepository.create: the DTO fields
plus the ownerId, with status OPEN and createdAt set at creation. -/
def mkMatching (newId ownerId : Nat) (now : Int) (dto : CreateMatchingDto) : Matching :=
  { id := newId
    ownerId := ownerId
    matchingType := dto.matchingType
    matchingDate := dto.matchingDate
    duration := dto.duration
    status := .OPEN
    createdAt := now }

/-- MatchingController.create (lines 22-38): the three validation guards in
source order, then persistence through the repository. -/
def create (now : Int) (newId ownerId : Nat) (dto : CreateMatchingDto) (db : DB) :
    DB × Except AppError Matching :=
  if missingCheck dto then
    (db, .error (.badRequest "Missing duration or matching date"))
  else if invalidDuration dto then
    (db, .error (.badRequest "Invalid duration"))
  else if invalidMatchingDate now dto then
    (db, .error (.badRequest "Invalid matching date"))
  else
    let m := mkMatching newId ownerId now dto
    ({ db with matchings := db.matchings ++ [m] }, .ok m)

/-- MatchingRepository.findOne (lines 48-53): `findFirst({ where: { id } })`. -/
def findOne (db : DB) (id : Nat) : Option Matching :=
  db.matchings.find? (fun m => m.id == id)

/-- PaginationDto: the `{ total, items }` envelope. -/
structure PaginationDto where
  total : Nat
  items : List Matching
deriving DecidableEq

/-- The query object produced by SearchQueryPipe, restricted to the fields
that reach MatchingRepository.listActive. -/
structure SearchQueryDto where
  status : Option MatchingStatus
  limit : Nat
  offset : Nat
deriving DecidableEq

/-- MatchingRepository.listActive (lines 23-34): count and findMany both use
the where-clause `{ status: OPEN }`; the rows are ordered by `sortParam`
(an arbitrary reordering supplied by the caller), then `skip: offset` and
`take: limit` are applied.  The method destructures only `{ limit, offset }`
from the query, so no status filter can reach it. -/
def listActive (sortParam : List Matching → List Matching) (limit offset : Nat)
    (db : DB) : PaginationDto :=
  let opens := db.matchings.filter (fun m => m.status == .OPEN)
  { total := opens.length
    items := ((sortParam opens).drop offset).take limit }

/-- The list endpoint (matching.controller.ts lines 40-53): the service layer
passes the query through to `listActive`, whose signature admits only
`limit` and `offset`; the `status` field of the query never reaches the
where-clause. -/
def listMatchings (sortParam : List Matching → List Matching)
    (query : SearchQueryDto) (db : DB) : PaginationDto :=
  listActive sortParam query.limit query.offset db

/-- MatchingRepository.addUserToMatching (lines 55-59): create the row. -/
def addUserToMatching (matchingId userId : Nat) (db : DB) : DB :=
  { db with memberships := db.memberships ++ [⟨matchingId, userId⟩] }

/-- MatchingRepository.removeUserFromMatching (lines 61-65): delete the row
keyed by (userId, matchingId).  In the controller the call is not awaited,
so a failed delete of an absent row does not change the response; the
observable database effect is: the row is removed when present. -/
def removeUserFromMatching (matchingId userId : Nat) (db : DB) : DB :=
  { db with memberships :=
      db.memberships.filter (fun mb => !(mb.matchingId == matchingId && mb.userId == userId)) }

/-- Modelled from the spec: `MatchingService.joinUser` is not under src/
(only the controller that calls it and the repository method
`addUserToMatching` are).  Spec section 4.2: if the matching does not
exist, fail with NotFoundError; otherwise create the membership row. -/
def joinUser (matchingId userId : Nat) (db : DB) : DB × Except AppError Unit :=
  match findOne db matchingId with
  | none => (db, .error .notFound)
  | some _ => (addUserToMatching matchingId userId db, .ok ())

/-- MatchingController.leaveMatching (lines 101-124).  `userIdParam` is the
value of `+userId` on the query string: `none` stands for NaN (parameter
absent or non-numeric), `some 0` for the string "0" or the empty string.
`!uid` is true exactly for NaN and 0.  In the owner branch the member row
of `uid` is removed and the call succeeds; otherwise the row of the caller
is removed and the call then unconditionally throws ForbiddenException. -/
def leaveMatching (currentUserId id : Nat) (userIdParam : Option Nat) (db : DB) :
    DB × Except AppError Unit :=
  match findOne db id with
  | none => (db, .error .notFound)
  | some matching =>
    if currentUserId == matching.ownerId then
      match userIdParam with
      | none => (db, .error (.badRequest "missing member id"))
      | some uid =>
        if uid == 0 then
          (db, .error (.badRequest "missing member id"))
        else
          (removeUserFromMatching id uid db, .ok ())
    else
      (removeUserFromMatching id currentUserId db,
        .error (.forbidden "not allowed operation"))

/-- MatchingRepository.delete (lines 77-79). -/
def deleteMatching (id : Nat) (db : DB) : DB :=
  { db with matchings := db.matchings.filter (fun m => !(m.id == id)) }

/-- MatchingController.remove (lines 126-140): not-found check, then
owner-only authorization, then delete. -/
def removeMatching (currentUserId id : Nat) (db : DB) : DB × Except AppError Unit :=
  match findOne db id with
  | none => (db, .error .notFound)
  | some matching =>
    if !(matching.ownerId == currentUserId) then
      (db, .error (.forbidden "not allowed operation"))
    else
      (deleteMatching id db, .ok ())

/-- The per-row effect of MatchingRepository.updateStatus (lines 67-75):
`updateMany({ where: { matchingDate: { lte: now }, status: OPEN },
data: { status: CLOSED } })`.  Prisma `lte` never matches a null column, so
rows without a matchingDate are untouched; the matchingType and the
duration are never consulted. -/
def closeIfExpired (now : Int) (m : Matching) : Matching :=
  if (match m.matchingDate with
      | some d => decide (d ≤ now)
      | none => false)
      && m.status == .OPEN then
    { m with status := .CLOSED }
  else
    m

/-- MatchingRepository.updateStatus: the periodic sweep, a single bulk
conditional update over all matching rows. -/
def updateStatus (now : Int) (db : DB) : DB :=
  { db with matchings := db.matchings.map (closeIfExpired now) }

/-! Sample rows and states used by concrete counterexamples and witnesses. -/

/-- An OPEN QUICK matching with no matchingDate whose duration window has
long elapsed. -/
def quickExpiredSample : Matching :=
  { id := 1, ownerId := 1, matchingType := .QUICK, matchingDate := none,
    duration := some 5, status := .OPEN, createdAt := 0 }

/-- An OPEN YOTEI matching whose matchingDate is in the past. -/
def yoteiOpenSample : Matching :=
  { id := 3, ownerId := 2, matchingType := .YOTEI, matchingDate := some 50,
    duration := none, status := .OPEN, createdAt := 0 }

/-- A CLOSED matching row. -/
def closedRowSample : Matching :=
  { id := 4, ownerId := 1, matchingType := .YOTEI, matchingDate := some 10,
    duration := none, status := .CLOSED, createdAt := 0 }

/-! Theorems for the claims. -/

/-- C1 counterexample: an OPEN QUICK matching (no matchingDate) whose
window `createdAt + duration` elapsed at `now = 100` is NOT set to CLOSED
by the sweep — the sweep leaves it untouched, refuting the claim that a
QUICK matching is closed when `createdAt + duration <= now`. -/
theorem C1_counterexample :
    quickExpiredSample.matchingType = .QUICK ∧
    quickExpiredSample.status = .OPEN ∧
    quickExpiredSample.duration = some 5 ∧
    quickExpiredSample.createdAt + 5 ≤ 100 ∧
    (updateStatus 100 ⟨[quickExpiredSample], []⟩).matchings = [quickExpiredSample] :=
  ⟨rfl, rfl, rfl, by decide, by decide⟩

/-- C1 amended: the sweep maps each row through `closeIfExpired`, which
sets status to CLOSED exactly on OPEN rows whose matchingDate is present
and at most `now`, regardless of matchingType; rows without a
matchingDate, rows already CLOSED, and rows with a future matchingDate
are unchanged. -/
theorem C1_thm (now : Int) (db : DB) :
    (updateStatus now db).matchings = db.matchings.map (closeIfExpired now) ∧
    (∀ m : Matching, m.status = .OPEN → ∀ d : Int, m.matchingDate = some d → d ≤ now →
      closeIfExpired now m = { m with status := .CLOSED }) ∧
    (∀ m : Matching, m.matchingDate = none → closeIfExpired now m = m) ∧
    (∀ m : Matching, m.status = .CLOSED → closeIfExpired now m = m) ∧
    (∀ m : Matching, ∀ d : Int, m.matchingDate = some d → now < d →
      closeIfExpired now m = m) := by
  refine ⟨rfl, ?_, ?_, ?_, ?_⟩
  · intro m hst d hd hle
    simp [closeIfExpired, hd, hst, hle]
  · intro m hd
    simp [closeIfExpired, hd]
  · intro m hst
    simp [closeIfExpired, hst]
  · intro m d hd hlt
    simp [closeIfExpired, hd, not_le.mpr hlt]

/-- C1 witness: the amended theorem applied to a concrete expired OPEN
YOTEI row at now = 100. -/
theorem C1_witness :
    closeIfExpired 100 yoteiOpenSample = { yoteiOpenSample with status := .CLOSED } :=
  (C1_thm 100 ⟨[], []⟩).2.1 yoteiOpenSample rfl 50 rfl (by decide)

/-- Applying the sweep step twice at one instant equals applying it once. -/
theorem closeIfExpired_idem (now : Int) (m : Matching) :
    closeIfExpired now (closeIfExpired now m) = closeIfExpired now m := by
  by_cases h : ((match m.matchingDate with
      | some d => decide (d ≤ now)
      | none => false) && m.status == MatchingStatus.OPEN) = true
  · have h1 : closeIfExpired now m = { m with status := .CLOSED } := by
      unfold closeIfExpired
      rw [if_pos h]
    rw [h1]
    unfold closeIfExpired
    simp
  · have h1 : closeIfExpired now m = m := by
      unfold closeIfExpired
      rw [if_neg h]
    rw [h1, h1]

/-- C8: the sweep is idempotent — running it twice with the same clock
yields the same state as running it once — and it does not touch a row
that is already CLOSED. -/
theorem C8_thm (now : Int) (db : DB) :
    updateStatus now (updateStatus now db) = updateStatus now db ∧
    ∀ m : Matching, m.status = .CLOSED → closeIfExpired now m = m := by
  constructor
  · unfold updateStatus
    congr 1
    rw [List.map_map]
    have hc : closeIfExpired now ∘ closeIfExpired now = closeIfExpired now :=
      funext (closeIfExpired_idem now)
    rw [hc]
  · intro m hst
    simp [closeIfExpired, hst]

/-- C8 witness: the already-CLOSED clause of the idempotence theorem at a
concrete CLOSED row. -/
theorem C8_witness :
    closeIfExpired 100 closedRowSample = closedRowSample :=
  (C8_thm 100 ⟨[], []⟩).2 closedRowSample rfl

/-- C6: joining a matching id that does not exist fails with NotFound and
leaves the state (hence the membership table) unchanged. -/
theorem C6_thm (db : DB) (matchingId userId : Nat)
    (h : findOne db matchingId = none) :
    joinUser matchingId userId db = (db, .error .notFound) := by
  unfold joinUser
  rw [h]

/-- C6 witness: joining matching 1 in the empty state. -/
theorem C6_witness :
    joinUser 1 2 ⟨[], []⟩ = (⟨[], []⟩, .error .notFound) :=
  C6_thm ⟨[], []⟩ 1 2 rfl

/-- An OPEN QUICK matching owned by user 4, for C7. -/
def ownedRowSample : Matching :=
  { id := 9, ownerId := 4, matchingType := .QUICK, matchingDate := none,
    duration := some 30, status := .OPEN, createdAt := 0 }

/-- A state with one matching owned by user 4 and one member, for C7. -/
def ownedDbSample : DB :=
  { matchings := [ownedRowSample], memberships := [⟨9, 5⟩] }

/-- C7: deleting an existing matching as a non-owner fails with Forbidden
and leaves the state — matching rows and membership rows — unchanged. -/
theorem C7_thm (db : DB) (callerId id : Nat) (m : Matching)
    (hfind : findOne db id = some m) (hown : m.ownerId ≠ callerId) :
    removeMatching callerId id db = (db, .error (.forbidden "not allowed operation")) := by
  unfold removeMatching
  rw [hfind]
  simp [hown]

/-- C7 witness: user 5 attempts to delete the matching owned by user 4. -/
theorem C7_witness :
    removeMatching 5 9 ownedDbSample =
      (ownedDbSample, .error (.forbidden "not allowed operation")) :=
  C7_thm ownedDbSample 5 9 ownedRowSample rfl (by decide)

/-- An OPEN matching owned by user 1, for C2. -/
def leaveRowSample : Matching :=
  { id := 1, ownerId := 1, matchingType := .YOTEI, matchingDate := some 1000,
    duration := none, status := .OPEN, createdAt := 0 }

/-- A state where user 2 is a member of the matching of user 1, for C2. -/
def leaveDbSample : DB :=
  { matchings := [leaveRowSample], memberships := [⟨1, 2⟩] }

/-- C2: a leave request by a non-owner on an existing matching removes the
membership row of the caller and then always fails with
Forbidden("not allowed operation"); the removal persists in the resulting
state. -/
theorem C2_thm (db : DB) (currentUserId id : Nat) (p : Option Nat) (m : Matching)
    (hfind : findOne db id = some m) (hown : currentUserId ≠ m.ownerId) :
    leaveMatching currentUserId id p db =
      (removeUserFromMatching id currentUserId db,
        .error (.forbidden "not allowed operation")) ∧
    Membership.mk id currentUserId ∉ (leaveMatching currentUserId id p db).1.memberships := by
  have h1 : leaveMatching currentUserId id p db =
      (removeUserFromMatching id currentUserId db,
        .error (.forbidden "not allowed operation")) := by
    unfold leaveMatching
    rw [hfind]
    simp [hown]
  refine ⟨h1, ?_⟩
  rw [h1]
  intro hmem
  have h2 := (List.mem_filter.mp hmem).2
  simp at h2

/-- C2 witness: member 2 leaves the matching of owner 1; the membership
row of user 2 is gone and the call reports Forbidden. -/
theorem C2_witness :
    leaveMatching 2 1 none leaveDbSample =
      (removeUserFromMatching 1 2 leaveDbSample,
        .error (.forbidden "not allowed operation")) ∧
    Membership.mk 1 2 ∉ (leaveMatching 2 1 none leaveDbSample).1.memberships :=
  C2_thm leaveDbSample 2 1 none leaveRowSample rfl (by decide)

/-- A CLOSED matching row, for C3. -/
def closedSample : Matching :=
  { id := 2, ownerId := 1, matchingType := .YOTEI, matchingDate := some 0,
    duration := none, status := .CLOSED, createdAt := 0 }

/-- C3 counterexample: with one CLOSED matching in the database, a list
query explicitly requesting status CLOSED returns no items at all — the
requested CLOSED matching is not returned, refuting the claim that an
explicit status filter is honored. -/
theorem C3_counterexample :
    closedSample.status = .CLOSED ∧
    (listMatchings (fun l => l) { status := some .CLOSED, limit := 10, offset := 0 }
      ⟨[closedSample], []⟩).items = [] :=
  ⟨rfl, rfl⟩

/-- C3 amended: whatever the status field of the query says, every item a
list query returns is an OPEN matching from the database (the repository
hard-codes the OPEN filter and never reads the status field); `sortParam`
is any reordering that invents no rows. -/
theorem C3_thm (sortParam : List Matching → List Matching)
    (hsort : ∀ (l : List Matching) (x : Matching), x ∈ sortParam l → x ∈ l)
    (q : SearchQueryDto) (db : DB) (m : Matching)
    (hm : m ∈ (listMatchings sortParam q db).items) :
    m.status = .OPEN ∧ m ∈ db.matchings := by
  simp only [listMatchings, listActive] at hm
  have h1 := List.mem_of_mem_take hm
  have h2 := List.mem_of_mem_drop h1
  have h3 := hsort _ _ h2
  have h4 := List.mem_filter.mp h3
  refine ⟨?_, h4.1⟩
  have h5 := h4.2
  simpa using h5

/-- An OPEN matching row, for the C3 and C9 witnesses. -/
def openSample : Matching :=
  { id := 5, ownerId := 1, matchingType := .YOTEI, matchingDate := some 1000,
    duration := none, status := .OPEN, createdAt := 0 }

/-- C3 witness: the amended theorem applied to a concrete state with one
OPEN matching, identity sort, no status filter. -/
theorem C3_witness :
    openSample.status = .OPEN ∧ openSample ∈ ([openSample] : List Matching) :=
  C3_thm (fun l => l) (fun _ _ h => h) ⟨none, 5, 0⟩ ⟨[openSample], []⟩ openSample (by decide)

/-- C9: a list query returns at most `limit` items, and its total equals
the exact count of rows satisfying the where-clause (status OPEN),
whatever limit and offset — and so is the same for any other query. -/
theorem C9_thm (sortParam : List Matching → List Matching)
    (q : SearchQueryDto) (db : DB) :
    (listMatchings sortParam q db).items.length ≤ q.limit ∧
    (listMatchings sortParam q db).total =
      (db.matchings.filter (fun m => m.status == .OPEN)).length ∧
    ∀ q2 : SearchQueryDto,
      (listMatchings sortParam q db).total = (listMatchings sortParam q2 db).total := by
  refine ⟨?_, rfl, fun q2 => rfl⟩
  simp only [listMatchings, listActive]
  exact List.length_take_le _ _

/-- An OPEN matching owned by user 7, for C10. -/
def ownerMemberRowSample : Matching :=
  { id := 1, ownerId := 7, matchingType := .YOTEI, matchingDate := some 1000,
    duration := none, status := .OPEN, createdAt := 0 }

/-- A state where the owner of the matching also holds a membership row,
for C10. -/
def ownerMemberDbSample : DB :=
  { matchings := [ownerMemberRowSample], memberships := [⟨1, 7⟩] }

/-- C10 counterexample: the owner (user 7) calls leave with userId = 7 —
their own id — and the call succeeds and removes their own membership
row, refuting the claim that the owner can never remove their own
membership through the leave endpoint. -/
theorem C10_counterexample :
    (leaveMatching 7 1 (some 7) ownerMemberDbSample).2 = .ok () ∧
    (leaveMatching 7 1 (some 7) ownerMemberDbSample).1.memberships = [] :=
  ⟨rfl, rfl⟩

/-- C10 amended: when the caller is the owner and the userId parameter is
absent (NaN) or parses to 0, the call fails with BadRequest
"missing member id" and no membership row is removed; the owner can
still remove their own membership by passing their own id as userId. -/
theorem C10_thm (db : DB) (currentUserId id : Nat) (p : Option Nat) (m : Matching)
    (hfind : findOne db id = some m) (hown : currentUserId = m.ownerId)
    (hp : p = none ∨ p = some 0) :
    leaveMatching currentUserId id p db = (db, .error (.badRequest "missing member id")) := by
  unfold leaveMatching
  rw [hfind]
  rcases hp with hp | hp <;> simp [hp, hown]

/-- C10 witness: owner 7 calls leave with the userId parameter absent. -/
theorem C10_witness :
    leaveMatching 7 1 none ownerMemberDbSample =
      (ownerMemberDbSample, .error (.badRequest "missing member id")) :=
  C10_thm ownerMemberDbSample 7 1 none ownerMemberRowSample rfl rfl (Or.inl rfl)

/-- A QUICK create input with duration 0, for the C4 counterexample. -/
def quickZeroDto : CreateMatchingDto :=
  { matchingType := .QUICK, duration := some 0, matchingDate := none }

/-- C4 counterexample: a QUICK create input with duration exactly 0 — not
negative — is rejected: JS `!duration` treats 0 as missing, so create
fails with "Missing duration or matching date", refuting the claim that
with duration present validation fails exactly when duration < 0 and that
duration 0 is accepted for QUICK. -/
theorem C4_counterexample :
    quickZeroDto.duration = some 0 ∧
    ¬ (0 : Int) < 0 ∧
    (create 100 1 1 quickZeroDto ⟨[], []⟩).2 =
      .error (.badRequest "Missing duration or matching date") :=
  ⟨rfl, by decide, rfl⟩

/-- C4 amended: with duration present and equal to d, the dedicated
duration check fires exactly for d < 0; d = 0 skips that check, but for a
QUICK input d = 0 is treated as a missing duration and create fails with
"Missing duration or matching date", while a YOTEI input with d = 0 and a
valid matchingDate is accepted. -/
theorem C4_thm (now : Int) (newId ownerId : Nat) (dto : CreateMatchingDto) (db : DB)
    (d : Int) (hd : dto.duration = some d) :
    ((create now newId ownerId dto db).2 = .error (.badRequest "Invalid duration") → d < 0) ∧
    (d < 0 → ¬(dto.matchingType = .YOTEI ∧ dto.matchingDate = none) →
      (create now newId ownerId dto db).2 = .error (.badRequest "Invalid duration")) ∧
    (d = 0 → dto.matchingType = .QUICK →
      (create now newId ownerId dto db).2 =
        .error (.badRequest "Missing duration or matching date")) ∧
    (d = 0 → dto.matchingType = .YOTEI → ∀ md : Int, dto.matchingDate = some md →
      ¬ md < now →
      (create now newId ownerId dto db).2 = .ok (mkMatching newId ownerId now dto)) := by
  have hdur : invalidDuration dto = (!(d == 0) && decide (d < 0)) := by
    unfold invalidDuration
    rw [hd]
  refine ⟨?_, ?_, ?_, ?_⟩
  · intro h
    unfold create at h
    split_ifs at h with h1 h2 h3
    · simp at h
    · rw [hdur] at h2
      simp at h2
      exact h2.2
    · simp at h
  · intro hneg hnot
    have hm : missingCheck dto = false := by
      unfold missingCheck numFalsy
      rw [hd]
      cases hty : dto.matchingType with
      | QUICK =>
        simp
        omega
      | YOTEI =>
        cases hdate : dto.matchingDate with
        | none => exact absurd ⟨hty, hdate⟩ hnot
        | some _ => simp
    have hd2 : invalidDuration dto = true := by
      rw [hdur]
      simp
      exact ⟨by omega, hneg⟩
    unfold create
    rw [if_neg (by simp [hm]), if_pos hd2]
  · intro h0 hty
    have hm : missingCheck dto = true := by
      unfold missingCheck numFalsy
      rw [hd, hty, h0]
      simp
    unfold create
    rw [if_pos hm]
  · intro h0 hty md hmd hge
    have hm : missingCheck dto = false := by
      unfold missingCheck
      rw [hty, hmd]
      simp
    have hd2 : invalidDuration dto = false := by
      rw [hdur, h0]
      simp
    have hd3 : invalidMatchingDate now dto = false := by
      unfold invalidMatchingDate
      rw [hmd]
      simpa using hge
    unfold create
    rw [if_neg (by simp [hm]), if_neg (by simp [hd2]), if_neg (by simp [hd3])]

/-- A QUICK create input with a negative duration, for the C4 witness. -/
def negDurationDto : CreateMatchingDto :=
  { matchingType := .QUICK, duration := some (-5), matchingDate := none }

/-- C4 witness: the amended theorem applied to a QUICK input with duration
minus five. -/
theorem C4_witness :
    (create 0 1 1 negDurationDto ⟨[], []⟩).2 = .error (.badRequest "Invalid duration") :=
  (C4_thm 0 1 1 negDurationDto ⟨[], []⟩ (-5) rfl).2.1 (by decide) (by decide)

/-- A YOTEI create input whose matchingDate equals the creation instant
now = 100, for the C5 counterexample. -/
def equalDateDto : CreateMatchingDto :=
  { matchingType := .YOTEI, duration := none, matchingDate := some 100 }

/-- C5 counterexample: a YOTEI create input whose matchingDate is exactly
the creation time (now = 100) is accepted and persisted — the source
compares with strict less-than — refuting the claim that matchingDate
equal to now fails with "Invalid matching date". -/
theorem C5_counterexample :
    equalDateDto.matchingDate = some 100 ∧
    (create 100 7 3 equalDateDto ⟨[], []⟩).2 = .ok (mkMatching 7 3 100 equalDateDto) ∧
    (create 100 7 3 equalDateDto ⟨[], []⟩).1.matchings = [mkMatching 7 3 100 equalDateDto] :=
  ⟨rfl, rfl, rfl⟩

/-- C5 amended: with matchingDate present and the earlier guards passing,
create fails with "Invalid matching date" exactly when matchingDate is
strictly before now — a matchingDate equal to now passes — and on that
failure the state is unchanged, so nothing is persisted. -/
theorem C5_thm (now : Int) (newId ownerId : Nat) (dto : CreateMatchingDto) (db : DB)
    (md : Int) (hmd : dto.matchingDate = some md)
    (h1 : missingCheck dto = false) (h2 : invalidDuration dto = false) :
    ((create now newId ownerId dto db).2 = .error (.badRequest "Invalid matching date") ↔
      md < now) ∧
    (md < now → (create now newId ownerId dto db).1 = db) := by
  have hdate : invalidMatchingDate now dto = decide (md < now) := by
    unfold invalidMatchingDate
    rw [hmd]
  unfold create
  rw [if_neg (by simp [h1]), if_neg (by simp [h2]), hdate]
  by_cases hlt : md < now
  · simp [hlt]
  · simp [hlt]

/-- A YOTEI create input dated before now = 100, for the C5 witness. -/
def pastDateDto : CreateMatchingDto :=
  { matchingType := .YOTEI, duration := none, matchingDate := some 50 }

/-- C5 witness: the amended theorem applied to a YOTEI input dated 50 at
creation time 100. -/
theorem C5_witness :
    ((create 100 1 1 pastDateDto ⟨[], []⟩).2 = .error (.badRequest "Invalid matching date") ↔
      (50 : Int) < 100) ∧
    ((50 : Int) < 100 → (create 100 1 1 pastDateDto ⟨[], []⟩).1 = ⟨[], []⟩) :=
  C5_thm 100 1 1 pastDateDto ⟨[], []⟩ 50 rfl (by decide) (by decide)

end Togeeat
